import Mathlib

/-!
Verification of the FinLife client-side scripts: the quick-operation modal
(dashboard-actions.js, two revisions embedded from src/backup_prod_db.sh),
push-notification registration (src/static/js/push-register.js) and the
notification service worker (src/static/js/service-worker.js).
The DOM state each script mutates is modelled as an explicit record; the
outcomes of platform and network calls are supplied as an environment.
-/

namespace FinLife

/-! Quick-operation modal (dashboard-actions.js).
The modal's form elements are modelled as present (the scripts bail out at
init when the wrapper or backdrop is missing, and the claims concern the
populated page). `select.value = s` selects the option with value `s`;
an `<option>` is `selected` exactly when its value equals the select's
current value. -/

/-- One entry of `allCategoryOptions`, captured at init from an
`option[data-type]` node: `{ value, label, type }`. -/
structure CatOpt where
  value : String
  label : String
  type : String
deriving DecidableEq, Repr

/-- An `<option>` element of the category select: value, text content and
the `data-type` attribute (`none` when the attribute is absent, as on the
placeholder and on rebuilt options). -/
structure DomOpt where
  value : String
  label : String
  dataType : Option String
deriving DecidableEq, Repr

/-- The `TITLES` map of dashboard-actions.js. -/
def TITLES (t : String) : Option String :=
  if t == "INCOME" then some ("Доход")
  else if t == "EXPENSE" then some ("Расход")
  else if t == "TRANSFER" then some ("Перемещение")
  else none

/-- Mutable DOM state touched by the rebuild revision of the script. -/
structure NewModal where
  menuHidden : Bool
  ariaExpanded : String
  typeValue : String
  titleText : String
  walletRowDisplay : String
  fromRowDisplay : String
  toRowDisplay : String
  walletDisabled : Bool
  fromDisabled : Bool
  toDisabled : Bool
  categoryRowDisplay : String
  categoryOptions : List DomOpt
  categoryValue : String
  amountValue : String
  descValue : String
  occurredAtValue : String
  backdropOpen : Bool
  focused : String
deriving DecidableEq, Repr

/-- `filterCategories` of the rebuild revision (lines 285-312): hides the
category row for transfers and clears the selection; otherwise removes
every option after index 0 (`while (qopCategory.options.length > 1)`),
appends a fresh option per catalog entry whose type matches, and clears
the selection. -/
def filterCategories (allCategoryOptions : List CatOpt) (t : String)
    (s : NewModal) : NewModal :=
  let isTransfer := t == "TRANSFER"
  let s := { s with categoryRowDisplay := if isTransfer then "none" else "" }
  if isTransfer then
    { s with categoryValue := "" }
  else
    let kept := s.categoryOptions.take 1
    let added := (allCategoryOptions.filter (fun c => c.type == t)).map
      (fun c => { value := c.value, label := c.label, dataType := none : DomOpt })
    { s with categoryOptions := kept ++ added, categoryValue := "" }

/-- `openModal` of the rebuild revision (lines 314-351). The externally
supplied balance-hint hooks are no-ops on the modelled state. -/
def openModal (allCategoryOptions : List CatOpt) (t : String)
    (s : NewModal) : NewModal :=
  let s := { s with menuHidden := true, ariaExpanded := "false" }
  let s := { s with typeValue := t,
                    titleText := (TITLES t).getD ("Быстрая операция") }
  let isTransfer := t == "TRANSFER"
  let s := { s with
    walletRowDisplay := if isTransfer then "none" else "",
    fromRowDisplay := if isTransfer then "" else "none",
    toRowDisplay := if isTransfer then "" else "none",
    walletDisabled := isTransfer,
    fromDisabled := !isTransfer,
    toDisabled := !isTransfer }
  let s := filterCategories allCategoryOptions t s
  let s := { s with amountValue := "", descValue := "",
                    categoryValue := "", occurredAtValue := "" }
  { s with backdropOpen := true, focused := "qopAmount" }

/-- Mutable DOM state of the older, visibility-toggling revision: each
category option keeps its own `style.display` string. -/
structure OldModal where
  menuHidden : Bool
  ariaExpanded : String
  typeValue : String
  titleText : String
  walletRowDisplay : String
  fromRowDisplay : String
  toRowDisplay : String
  walletDisabled : Bool
  fromDisabled : Bool
  toDisabled : Bool
  categoryRowDisplay : String
  categoryOptions : List (DomOpt × String)
  categoryValue : String
  amountValue : String
  descValue : String
  occurredAtValue : String
  backdropOpen : Bool
  focused : String
deriving DecidableEq, Repr

/-- One iteration of the `forEach` over `option[data-type]` nodes in the
old `filterCategories` (lines 125-131): options without the attribute are
not in the node list and pass through; a matching option gets its display
cleared, the others get `display: none`; when the currently selected
option just became hidden the selection resets to the placeholder. -/
def filterStep (t : String) (acc : List (DomOpt × String) × String)
    (e : DomOpt × String) : List (DomOpt × String) × String :=
  match e.1.dataType with
  | none => (acc.1 ++ [e], acc.2)
  | some dt =>
    let d := if dt == t then "" else "none"
    let v := if acc.2 == e.1.value && d == "none" then "" else acc.2
    (acc.1 ++ [(e.1, d)], v)

/-- `filterCategories` of the old revision (lines 111-132). -/
def filterCategoriesOld (t : String) (s : OldModal) : OldModal :=
  let isTransfer := t == "TRANSFER"
  let s := { s with categoryRowDisplay := if isTransfer then "none" else "" }
  if isTransfer then
    { s with categoryValue := "" }
  else
    let r := s.categoryOptions.foldl (filterStep t) ([], s.categoryValue)
    { s with categoryOptions := r.1, categoryValue := r.2 }

/-- `openModal` of the old revision (lines 134-171); identical to the
rebuild revision except for the `filterCategories` it calls. -/
def openModalOld (t : String) (s : OldModal) : OldModal :=
  let s := { s with menuHidden := true, ariaExpanded := "false" }
  let s := { s with typeValue := t,
                    titleText := (TITLES t).getD ("Быстрая операция") }
  let isTransfer := t == "TRANSFER"
  let s := { s with
    walletRowDisplay := if isTransfer then "none" else "",
    fromRowDisplay := if isTransfer then "" else "none",
    toRowDisplay := if isTransfer then "" else "none",
    walletDisabled := isTransfer,
    fromDisabled := !isTransfer,
    toDisabled := !isTransfer }
  let s := filterCategoriesOld t s
  let s := { s with amountValue := "", descValue := "",
                    categoryValue := "", occurredAtValue := "" }
  { s with backdropOpen := true, focused := "qopAmount" }

/-- The permanent first option of the category select in the host page:
the "no category" placeholder, empty value, no `data-type`. -/
def placeholderOpt : DomOpt :=
  { value := "", label := "Без категории", dataType := none }

/-- The option list the host page serves at load: the placeholder followed
by one `data-type`-tagged option per catalog entry. -/
def domOptions (cats : List CatOpt) : List DomOpt :=
  placeholderOpt ::
    cats.map (fun c => { value := c.value, label := c.label, dataType := some c.type })

/-- `allCategoryOptions` as captured at init by the rebuild revision
(lines 233-237): every option carrying a `data-type`. -/
def capturedCatalog (opts : List DomOpt) : List CatOpt :=
  opts.filterMap (fun o =>
    o.dataType.map (fun dt => { value := o.value, label := o.label, type := dt : CatOpt }))

/-- Initial state of the rebuild revision right after init on the host
page built from catalog `cats`. -/
def NewModal.start (cats : List CatOpt) : NewModal :=
  { menuHidden := true, ariaExpanded := "false", typeValue := "", titleText := "",
    walletRowDisplay := "", fromRowDisplay := "", toRowDisplay := "",
    walletDisabled := false, fromDisabled := false, toDisabled := false,
    categoryRowDisplay := "", categoryOptions := domOptions cats,
    categoryValue := "", amountValue := "", descValue := "",
    occurredAtValue := "", backdropOpen := false, focused := "" }

/-- Initial state of the old revision on the same host page: every option
starts with an empty `style.display`. -/
def OldModal.start (cats : List CatOpt) : OldModal :=
  { menuHidden := true, ariaExpanded := "false", typeValue := "", titleText := "",
    walletRowDisplay := "", fromRowDisplay := "", toRowDisplay := "",
    walletDisabled := false, fromDisabled := false, toDisabled := false,
    categoryRowDisplay := "", categoryOptions := (domOptions cats).map (fun o => (o, "")),
    categoryValue := "", amountValue := "", descValue := "",
    occurredAtValue := "", backdropOpen := false, focused := "" }

/-- The category options a user can actually pick in the old revision:
none when the category row is hidden, otherwise the (value, label) of
each option whose display is not `none`. -/
def OldModal.presented (s : OldModal) : List (String × String) :=
  if s.categoryRowDisplay == "none" then []
  else (s.categoryOptions.filter (fun e => !(e.2 == "none"))).map
    (fun e => (e.1.value, e.1.label))

/-- The category options a user can pick in the rebuild revision: none
when the category row is hidden, otherwise every option in the select. -/
def NewModal.presented (s : NewModal) : List (String × String) :=
  if s.categoryRowDisplay == "none" then []
  else s.categoryOptions.map (fun o => (o.value, o.label))

/-! Push registration (push-register.js). Platform capability, the
injected VAPID key, the permission state and the outcomes of the awaited
platform/network calls form an explicit environment; each entry point is
a function from that environment to the effects it performs. -/

/-- A push subscription as serialized for the backend:
`{ endpoint, keys: { p256dh, auth } }`. -/
structure PushSub where
  endpoint : String
  p256dh : String
  auth : String
deriving DecidableEq, Repr

/-- Outcome of an awaited `fetch`: a resolved response (`ok` = status in
the 2xx range) or a rejection (network error). -/
inductive FetchResult
  | response (ok : Bool)
  | failed
deriving DecidableEq, Repr

/-- Outcome of the awaited `reg.pushManager.subscribe(...)` call. -/
inductive SubscribeCall
  | granted (sub : PushSub)
  | rejected
deriving DecidableEq, Repr

/-- Environment of one push-register entry-point run. -/
structure PushEnv where
  supported : Bool
  vapidKey : Option String
  permissionDenied : Bool
  subscribeCall : SubscribeCall
  subscribeFetch : FetchResult
  currentSubscription : Option PushSub
  unsubscribeFetch : FetchResult
deriving DecidableEq, Repr

/-- Numeric value of one base64 character, as `atob` reads it. -/
def b64Val (c : Char) : Nat :=
  if ('A' ≤ c ∧ c ≤ 'Z') then c.toNat - 65
  else if ('a' ≤ c ∧ c ≤ 'z') then c.toNat - 71
  else if ('0' ≤ c ∧ c ≤ '9') then c.toNat + 4
  else if c == '+' then 62
  else if c == '/' then 63
  else 0

/-- `atob`: decode base64 four characters at a time into up to three
bytes, padding characters dropping trailing bytes. -/
def atobQuads : List Char → List Nat
  | c0 :: c1 :: c2 :: c3 :: rest =>
    let n := b64Val c0 * 262144 + b64Val c1 * 4096 + b64Val c2 * 64 + b64Val c3
    let keep := if c3 == '=' then (if c2 == '=' then 1 else 2) else 3
    ([n / 65536 % 256, n / 256 % 256, n % 256]).take keep ++ atobQuads rest
  | _ => []

/-- URL-safe base64 decoding of push-register.js lines 14-20: pad to a
multiple of four, map the URL-safe alphabet back, decode. -/
def urlBase64Decode (key : String) : List Nat :=
  let padding := List.replicate ((4 - key.length % 4) % 4) '='
  let base64 := (key.toList ++ padding).map
    (fun c => if c == '-' then '+' else if c == '_' then '/' else c)
  atobQuads base64

/-- `getApplicationServerKey` (lines 11-21): `null` when the injected
global is absent or empty (`!key`), otherwise the decoded bytes. -/
def getApplicationServerKey (env : PushEnv) : Option (List Nat) :=
  match env.vapidKey with
  | none => none
  | some key => if key == "" then none else some (urlBase64Decode key)

/-- Observable effects of one `subscribe()` run: whether the platform
subscribe API was invoked, the body POSTed to `/api/push/subscribe` (when
the POST was attempted), the argument of the `updateUI` call if one was
made (`none` = UI untouched), the alerts raised, and how many errors went
to `console.error`. -/
structure SubscribeOutcome where
  platformSubscribeCalled : Bool
  posted : Option PushSub
  rendered : Option String
  alerts : List String
  errorsLogged : Nat
deriving DecidableEq, Repr

/-- `subscribe()` (lines 69-105). A missing registration (no platform
support) or a `null` application server key alerts and returns before the
platform subscribe call. The `try` covers the platform subscribe and the
POST; a rejection lands in the `catch`, which renders "denied" when the
permission is denied and otherwise logs and alerts. A resolved non-2xx
response takes neither branch: the `if (resp.ok)` simply does nothing. -/
def subscribe (env : PushEnv) : SubscribeOutcome :=
  if !env.supported then
    { platformSubscribeCalled := false, posted := none, rendered := none,
      alerts := ["Push не поддерживается"], errorsLogged := 0 }
  else
    match getApplicationServerKey env with
    | none =>
      { platformSubscribeCalled := false, posted := none, rendered := none,
        alerts := ["VAPID ключ не настроен"], errorsLogged := 0 }
    | some _ =>
      match env.subscribeCall with
      | SubscribeCall.rejected =>
        if env.permissionDenied then
          { platformSubscribeCalled := true, posted := none,
            rendered := some ("denied"), alerts := [], errorsLogged := 0 }
        else
          { platformSubscribeCalled := true, posted := none, rendered := none,
            alerts := ["Не удалось подключить уведомления"], errorsLogged := 1 }
      | SubscribeCall.granted sub =>
        match env.subscribeFetch with
        | FetchResult.failed =>
          if env.permissionDenied then
            { platformSubscribeCalled := true, posted := some sub,
              rendered := some ("denied"), alerts := [], errorsLogged := 0 }
          else
            { platformSubscribeCalled := true, posted := some sub, rendered := none,
              alerts := ["Не удалось подключить уведомления"], errorsLogged := 1 }
        | FetchResult.response ok =>
          if ok then
            { platformSubscribeCalled := true, posted := some sub,
              rendered := some ("subscribed"), alerts := [], errorsLogged := 0 }
          else
            { platformSubscribeCalled := true, posted := some sub, rendered := none,
              alerts := [], errorsLogged := 0 }

/-- Observable effects of one `unsubscribe()` run. -/
structure UnsubscribeOutcome where
  revoked : Bool
  deleted : Option PushSub
  rendered : Option String
  threw : Bool
deriving DecidableEq, Repr

/-- `getCurrentSubscription` (lines 63-67): `null` without platform
support, otherwise the live subscription if any. -/
def getCurrentSubscription (env : PushEnv) : Option PushSub :=
  if env.supported then env.currentSubscription else none

/-- `unsubscribe()` (lines 107-125): with no live subscription it only
renders "prompt"; otherwise it revokes the subscription at the platform,
DELETEs the serialized payload to `/api/push/unsubscribe` — the trailing
`.catch(function () {})` swallows a rejected fetch, so the outcome does
not depend on `env.unsubscribeFetch` — and renders "prompt". -/
def unsubscribe (env : PushEnv) : UnsubscribeOutcome :=
  match getCurrentSubscription env with
  | none =>
    { revoked := false, deleted := none, rendered := some ("prompt"), threw := false }
  | some sub =>
    { revoked := true, deleted := some sub, rendered := some ("prompt"), threw := false }

/-- The push toggle button's mutable DOM fields. -/
structure PushButton where
  textContent : String
  className : String
  cssText : String
  disabled : Bool
deriving DecidableEq, Repr

/-- The DOM surface `updateUI` touches: the toggle button and the status
text node, either of which the page may omit. -/
structure PushDom where
  btn : Option PushButton
  status : Option String
deriving DecidableEq, Repr

/-- The style string every `updateUI` branch assigns. -/
def btnCss : String := "font-size:13px;padding:7px 16px;min-height:unset;"

/-- `updateUI` (lines 23-51). Returns unchanged when the button is
missing. Only the "denied" branch and the final else branch (any state
other than subscribed/prompt/denied, i.e. "unsupported") write
`btn.disabled`, both setting it to `true`. -/
def updateUI (state : String) (d : PushDom) : PushDom :=
  match d.btn with
  | none => d
  | some btn =>
    if state == "subscribed" then
      { btn := some { btn with textContent := "Отключить уведомления",
                               className := "danger", cssText := btnCss },
        status := d.status.map (fun _ => "Push-уведомления включены") }
    else if state == "prompt" then
      { btn := some { btn with textContent := "Включить push-уведомления",
                               className := "", cssText := btnCss },
        status := d.status.map (fun _ => "") }
    else if state == "denied" then
      { btn := some { btn with textContent := "Уведомления заблокированы",
                               disabled := true, className := "secondary",
                               cssText := btnCss },
        status := d.status.map (fun _ => "Разрешите в настройках браузера") }
    else
      { btn := some { btn with textContent := "Включить push-уведомления",
                               className := "", cssText := btnCss,
                               disabled := true },
        status := d.status.map (fun _ => "Push не поддерживается") }

/-- The button's disabled flag, when the button exists. -/
def btnDisabled (d : PushDom) : Option Bool :=
  d.btn.map (fun b => b.disabled)

/-! Service worker (service-worker.js). -/

/-- The fields the push handler reads from a parsed JSON payload; `none`
models an absent (undefined) field. -/
structure PushJson where
  title : Option String
  body : Option String
  url : Option String
deriving DecidableEq, Repr

/-- A push event's payload together with its parse outcome: `jsonData j`
when `event.data.json()` succeeds, `textData t` when parsing throws and
`event.data.text()` yields the raw text `t`. -/
inductive PushPayload
  | jsonData (j : PushJson)
  | textData (t : String)
deriving DecidableEq, Repr

/-- JavaScript `v || d` on an optional string: the default replaces an
absent or empty (falsy) value. -/
def jsOr (v : Option String) (d : String) : String :=
  match v with
  | none => d
  | some s => if s == "" then d else s

/-- The notification `showNotification` displays. -/
structure SWNotification where
  title : String
  body : String
  icon : String
  badge : String
  url : String
deriving DecidableEq, Repr

/-- The push handler (service-worker.js lines 12-30): nothing without
event data; a payload whose JSON parse throws falls back to
`{ title: 'FinLife', body: event.data.text(), url: '/' }`; the
notification applies `||` defaults to title, body and url. -/
def handlePush (eventData : Option PushPayload) : Option SWNotification :=
  match eventData with
  | none => none
  | some p =>
    let data : PushJson :=
      match p with
      | PushPayload.jsonData j => j
      | PushPayload.textData t =>
        { title := some ("FinLife"), body := some t, url := some ("/") }
    some { title := jsOr data.title ("FinLife"),
           body := jsOr data.body (""),
           icon := "/static/icons/icon-192.svg",
           badge := "/static/icons/icon-192.svg",
           url := jsOr data.url ("/") }

/-- An open window client as the click handler sees it: its URL and
whether it exposes `focus`. -/
structure WClient where
  url : String
  canFocus : Bool
deriving DecidableEq, Repr

/-- What the click handler resolves to: focusing an existing client or
opening one new window. -/
inductive ClickAction
  | focusClient (c : WClient)
  | openWindow (u : String)
deriving DecidableEq, Repr

/-- `hay.indexOf(needle) !== -1`. -/
def strContains (hay needle : String) : Bool :=
  decide (needle.toList <:+: hay.toList)

/-- The target URL (line 34): `event.notification.data &&
event.notification.data.url ? event.notification.data.url : '/'`; an
absent data object, an absent url field or an empty (falsy) url all give
the root. -/
def clickTargetUrl (data : Option (Option String)) : String :=
  match data with
  | some (some u) => if u == "" then "/" else u
  | _ => "/"

/-- Observable effects of one `notificationclick` dispatch. -/
structure ClickOutcome where
  notificationClosed : Bool
  action : ClickAction
deriving DecidableEq, Repr

/-- The click handler (lines 32-46): close the notification, then focus
the first open window client whose URL contains the target and has a
`focus` method; with no such client, open one new window at the target. -/
def notificationClick (data : Option (Option String)) (cs : List WClient) :
    ClickOutcome :=
  let url := clickTargetUrl data
  { notificationClosed := true,
    action :=
      match cs.find? (fun c => strContains c.url url && c.canFocus) with
      | some c => ClickAction.focusClient c
      | none => ClickAction.openWindow url }

/-! Abstractions used to relate the two revisions of the modal script.
The category state either revision reaches is a function of the last
non-TRANSFER type opened (if any) and of the last type opened. -/

/-- A tagged option as the host page serves it for catalog entry `c`. -/
def tagOpt (c : CatOpt) : DomOpt :=
  { value := c.value, label := c.label, dataType := some c.type }

/-- A fresh option as the rebuild revision creates it (no `data-type`). -/
def rebuiltOpt (c : CatOpt) : DomOpt :=
  { value := c.value, label := c.label, dataType := none }

/-- Abstract category state: the last non-TRANSFER type `openModal` was
called with (if any), and the category row's current display. One
`openModal ty` call advances it. -/
def absStep (a : Option String × String) (ty : String) : Option String × String :=
  (if ty == "TRANSFER" then a.1 else some ty,
   if ty == "TRANSFER" then "none" else "")

/-- The old revision's option/display pairs after the last non-TRANSFER
type `a` (all displays clear when no filtering has happened yet). -/
def displayedOld (a : Option String) (cats : List CatOpt) : List (DomOpt × String) :=
  (placeholderOpt, "") ::
    cats.map (fun c =>
      (tagOpt c,
       match a with
       | none => ""
       | some t => if c.type == t then "" else "none"))

/-- The rebuild revision's option list after the last non-TRANSFER type. -/
def optionsNew (a : Option String) (cats : List CatOpt) : List DomOpt :=
  match a with
  | none => domOptions cats
  | some t => placeholderOpt :: (cats.filter (fun c => c.type == t)).map rebuiltOpt

/-- The old revision's category state matches abstract state `a`. -/
def CharOld (cats : List CatOpt) (s : OldModal) (a : Option String × String) : Prop :=
  s.categoryOptions = displayedOld a.1 cats ∧
  s.categoryRowDisplay = a.2 ∧
  s.categoryValue = ""

/-- The rebuild revision's category state matches abstract state `a`. -/
def CharNew (cats : List CatOpt) (s : NewModal) (a : Option String × String) : Prop :=
  s.categoryOptions = optionsNew a.1 cats ∧
  s.categoryRowDisplay = a.2 ∧
  s.categoryValue = ""

/-! Concrete inputs for witnesses and counterexamples. -/

/-- A two-entry category catalog. -/
def catsW : List CatOpt :=
  [{ value := "7", label := "Еда", type := "EXPENSE" },
   { value := "3", label := "Зарплата", type := "INCOME" }]

/-- A concrete push subscription. -/
def subW : PushSub :=
  { endpoint := "https://push.example/ep1", p256dh := "pk", auth := "au" }

/-- An environment where every call succeeds ("QUJD" is valid base64). -/
def envOkW : PushEnv :=
  { supported := true, vapidKey := some ("QUJD"), permissionDenied := false,
    subscribeCall := SubscribeCall.granted subW,
    subscribeFetch := FetchResult.response true,
    currentSubscription := some subW,
    unsubscribeFetch := FetchResult.response true }

/-- Same environment but the backend answers the subscribe POST with a
non-2xx status. -/
def envNonOk : PushEnv :=
  { envOkW with subscribeFetch := FetchResult.response false }

/-- Same environment but no VAPID key was injected. -/
def envNoKey : PushEnv :=
  { envOkW with vapidKey := none }

/-- Two focusable open window clients. -/
def clientsW : List WClient :=
  [{ url := "https://fin.example/app", canFocus := true },
   { url := "https://fin.example/", canFocus := true }]

/-- A concrete toggle button, enabled. -/
def btnW : PushButton :=
  { textContent := "", className := "", cssText := "", disabled := false }

/-! Theorems. -/

theorem take_one_cons {α : Type} (a : α) (l : List α) : (a :: l).take 1 = [a] := rfl

theorem drop_one_cons {α : Type} (a : α) (l : List α) : (a :: l).drop 1 = l := rfl

/-- Helper: the category fields `openModal` (rebuild revision) leaves
behind, for any type string. -/
theorem openModal_category_fields (cats : List CatOpt) (s : NewModal) (t : String) :
    (openModal cats t s).categoryValue = "" ∧
    (openModal cats t s).categoryRowDisplay = (if t = "TRANSFER" then "none" else "") ∧
    (openModal cats t s).categoryOptions =
      (if t = "TRANSFER" then s.categoryOptions
       else s.categoryOptions.take 1 ++
         (cats.filter (fun c => c.type == t)).map
           (fun c => { value := c.value, label := c.label, dataType := none })) := by
  by_cases h : t = "TRANSFER" <;> simp [openModal, filterCategories, h]

/-- Claim C1: for each OperationType, `openModal(type)` yields exactly
the documented field-visibility combination: TRANSFER shows the from/to
rows and hides the single-wallet and category rows; INCOME and EXPENSE
show the single-wallet and category rows and hide the from/to rows. -/
theorem openModal_field_visibility (cats : List CatOpt) (s : NewModal) (t : String)
    (h : t = "INCOME" ∨ t = "EXPENSE" ∨ t = "TRANSFER") :
    ((openModal cats t s).walletRowDisplay,
     (openModal cats t s).fromRowDisplay,
     (openModal cats t s).toRowDisplay,
     (openModal cats t s).categoryRowDisplay) =
      (if t = "TRANSFER" then ("none", "", "", "none")
       else ("", "none", "none", "")) := by
  rcases h with h | h | h <;> subst h <;> rfl

/-- Witness for C1 at type TRANSFER on the concrete catalog. -/
theorem openModal_field_visibility_witness :
    (("TRANSFER" : String) = "INCOME" ∨ ("TRANSFER" : String) = "EXPENSE" ∨
      ("TRANSFER" : String) = "TRANSFER") ∧
    ((openModal catsW ("TRANSFER") (NewModal.start catsW)).walletRowDisplay,
     (openModal catsW ("TRANSFER") (NewModal.start catsW)).fromRowDisplay,
     (openModal catsW ("TRANSFER") (NewModal.start catsW)).toRowDisplay,
     (openModal catsW ("TRANSFER") (NewModal.start catsW)).categoryRowDisplay) =
      (if ("TRANSFER" : String) = "TRANSFER" then ("none", "", "", "none")
       else ("", "none", "none", "")) :=
  ⟨Or.inr (Or.inr rfl),
   openModal_field_visibility catsW (NewModal.start catsW) ("TRANSFER")
     (Or.inr (Or.inr rfl))⟩

/-- Claim C2: after `openModal(type)` the category selection is never
left on an entry outside the new type's catalog: a TRANSFER open empties
the selection and hides the category row leaving the option list alone,
and an INCOME/EXPENSE open leaves the select holding the retained first
option (the placeholder) plus exactly the catalog entries of that type,
with the selection reset to the placeholder value. -/
theorem openModal_category_reset (cats : List CatOpt) (s : NewModal) (t : String) :
    (openModal cats t s).categoryValue = "" ∧
    (openModal cats t s).categoryRowDisplay = (if t = "TRANSFER" then "none" else "") ∧
    (openModal cats t s).categoryOptions =
      (if t = "TRANSFER" then s.categoryOptions
       else s.categoryOptions.take 1 ++
         (cats.filter (fun c => c.type == t)).map
           (fun c => { value := c.value, label := c.label, dataType := none })) := by
  by_cases h : t = "TRANSFER" <;> simp [openModal, filterCategories, h]

/-- Claim C3: the category rebuild is idempotent — a second
`openModal` with the same type leaves the option list of the first —
and the list keeps exactly one "no category" placeholder, first. -/
theorem category_rebuild_idempotent (cats : List CatOpt) (s : NewModal) (t : String)
    (hhead : s.categoryOptions.take 1 = [placeholderOpt])
    (htail : ∀ o ∈ s.categoryOptions.drop 1, o.value ≠ "")
    (hcats : ∀ c ∈ cats, c.value ≠ "") :
    (openModal cats t (openModal cats t s)).categoryOptions =
      (openModal cats t s).categoryOptions ∧
    (openModal cats t s).categoryOptions.take 1 = [placeholderOpt] ∧
    ∀ o ∈ (openModal cats t s).categoryOptions.drop 1, o.value ≠ "" := by
  obtain ⟨-, -, hv1⟩ := openModal_category_fields cats s t
  obtain ⟨-, -, hv2⟩ := openModal_category_fields cats (openModal cats t s) t
  by_cases h : t = "TRANSFER"
  · subst h
    simp only [if_pos rfl] at hv1 hv2
    rw [hv2, hv1]
    exact ⟨rfl, hhead, htail⟩
  · cases hs : s.categoryOptions with
    | nil => rw [hs] at hhead; simp at hhead
    | cons a l =>
      rw [hs, take_one_cons] at hhead
      have ha : a = placeholderOpt := by simpa using hhead
      subst ha
      simp only [if_neg h] at hv1 hv2
      rw [hs, take_one_cons, List.singleton_append] at hv1
      rw [hv1, take_one_cons, List.singleton_append] at hv2
      refine ⟨?_, ?_, ?_⟩
      · rw [hv1, hv2]
      · rw [hv1, take_one_cons]
      · rw [hv1, drop_one_cons]
        intro o ho
        simp only [List.mem_map, List.mem_filter] at ho
        obtain ⟨c, hc, rfl⟩ := ho
        exact hcats c hc.1

/-- Witness for C3: a double EXPENSE open on the concrete catalog. -/
theorem category_rebuild_idempotent_witness :
    ((NewModal.start catsW).categoryOptions.take 1 = [placeholderOpt] ∧
     (∀ o ∈ (NewModal.start catsW).categoryOptions.drop 1, o.value ≠ "") ∧
     (∀ c ∈ catsW, c.value ≠ "")) ∧
    ((openModal catsW ("EXPENSE") (openModal catsW ("EXPENSE") (NewModal.start catsW))).categoryOptions =
       (openModal catsW ("EXPENSE") (NewModal.start catsW)).categoryOptions ∧
     (openModal catsW ("EXPENSE") (NewModal.start catsW)).categoryOptions.take 1 =
       [placeholderOpt] ∧
     ∀ o ∈ (openModal catsW ("EXPENSE") (NewModal.start catsW)).categoryOptions.drop 1,
       o.value ≠ "") :=
  ⟨⟨by decide, by decide, by decide⟩,
   category_rebuild_idempotent catsW (NewModal.start catsW) ("EXPENSE")
     (by decide) (by decide) (by decide)⟩

/-- Claim C5: `unsubscribe()` never throws and always renders "prompt";
with no live subscription it performs no platform revocation and no
network call; with one it revokes it and DELETEs the payload, and the
outcome does not depend on the DELETE's fate (a rejection is swallowed). -/
theorem unsubscribe_always_prompt (env : PushEnv) :
    (unsubscribe env).threw = false ∧
    (unsubscribe env).rendered = some ("prompt") ∧
    (getCurrentSubscription env = none →
      (unsubscribe env).revoked = false ∧ (unsubscribe env).deleted = none) ∧
    (∀ sub, getCurrentSubscription env = some sub →
      (unsubscribe env).revoked = true ∧ (unsubscribe env).deleted = some sub) ∧
    (∀ f, unsubscribe { env with unsubscribeFetch := f } = unsubscribe env) := by
  obtain ⟨sup, vk, pd, sc, sf, cs, uf⟩ := env
  cases sup <;> cases cs <;>
    simp [unsubscribe, getCurrentSubscription]

/-- Claim C6: with the injected public key global unset (absent or
empty), `subscribe()` never reaches the platform subscribe call, leaves
the UI untouched and raises exactly one alert. -/
theorem subscribe_missing_key (env : PushEnv)
    (h : env.vapidKey = none ∨ env.vapidKey = some "") :
    (subscribe env).platformSubscribeCalled = false ∧
    (subscribe env).rendered = none ∧
    (subscribe env).alerts.length = 1 := by
  obtain ⟨sup, vk, pd, sc, sf, cs, uf⟩ := env
  rcases h with h | h <;> simp only [] at h <;> subst h <;> cases sup <;>
    simp [subscribe, getApplicationServerKey]

/-- Witness for C6: the fully supported environment without a key. -/
theorem subscribe_missing_key_witness :
    (envNoKey.vapidKey = none ∨ envNoKey.vapidKey = some "") ∧
    ((subscribe envNoKey).platformSubscribeCalled = false ∧
     (subscribe envNoKey).rendered = none ∧
     (subscribe envNoKey).alerts.length = 1) :=
  ⟨Or.inl rfl, subscribe_missing_key envNoKey (Or.inl rfl)⟩

/-- Counterexample to claim C4 as stated: when the platform subscription
succeeds but the backend answers the POST with a non-2xx response,
`subscribe()` raises no alert, logs nothing and leaves the UI untouched —
the `if (resp.ok)` has no else branch — contradicting the claim that
every such failure alerts and logs. -/
theorem subscribe_non2xx_silent :
    envNonOk.supported = true ∧
    getApplicationServerKey envNonOk ≠ none ∧
    envNonOk.subscribeFetch = FetchResult.response false ∧
    (subscribe envNonOk).alerts = [] ∧
    (subscribe envNonOk).errorsLogged = 0 ∧
    (subscribe envNonOk).rendered = none := by
  refine ⟨rfl, by decide, rfl, rfl, rfl, rfl⟩

/-- Claim C4 as amended: with support and a key present, a successful
platform subscription followed by a 2xx POST renders "subscribed"; a
resolved non-2xx POST silently changes nothing (no alert, no log, UI
unchanged); a thrown platform subscription or thrown POST renders
"denied" when the permission is denied, and otherwise alerts once, logs
the error and leaves the UI unchanged. -/
theorem subscribe_error_handling (env : PushEnv) (hs : env.supported = true)
    (hk : getApplicationServerKey env ≠ none) :
    (∀ sub, env.subscribeCall = SubscribeCall.granted sub →
       env.subscribeFetch = FetchResult.response true →
       subscribe env = { platformSubscribeCalled := true, posted := some sub,
                         rendered := some ("subscribed"), alerts := [],
                         errorsLogged := 0 }) ∧
    (∀ sub, env.subscribeCall = SubscribeCall.granted sub →
       env.subscribeFetch = FetchResult.response false →
       subscribe env = { platformSubscribeCalled := true, posted := some sub,
                         rendered := none, alerts := [], errorsLogged := 0 }) ∧
    ((env.subscribeCall = SubscribeCall.rejected ∨
        env.subscribeFetch = FetchResult.failed) →
       env.permissionDenied = true →
       (subscribe env).rendered = some ("denied")) ∧
    ((env.subscribeCall = SubscribeCall.rejected ∨
        env.subscribeFetch = FetchResult.failed) →
       env.permissionDenied = false →
       (subscribe env).rendered = none ∧
       (subscribe env).alerts = ["Не удалось подключить уведомления"] ∧
       (subscribe env).errorsLogged = 1) := by
  obtain ⟨k, hkk⟩ : ∃ k, getApplicationServerKey env = some k := by
    cases hh : getApplicationServerKey env
    · exact absurd hh hk
    · exact ⟨_, rfl⟩
  refine ⟨?_, ?_, ?_, ?_⟩
  · intro sub h1 h2
    simp [subscribe, hs, hkk, h1, h2]
  · intro sub h1 h2
    simp [subscribe, hs, hkk, h1, h2]
  · rintro (h1 | h1) hp
    · simp [subscribe, hs, hkk, h1, hp]
    · cases h2 : env.subscribeCall <;> simp [subscribe, hs, hkk, h1, h2, hp]
  · rintro (h1 | h1) hp
    · simp [subscribe, hs, hkk, h1, hp]
    · cases h2 : env.subscribeCall <;> simp [subscribe, hs, hkk, h1, h2, hp]

/-- Witness for the amended C4 at the all-success environment. -/
theorem subscribe_error_handling_witness :
    (envOkW.supported = true ∧ getApplicationServerKey envOkW ≠ none) ∧
    ((∀ sub, envOkW.subscribeCall = SubscribeCall.granted sub →
        envOkW.subscribeFetch = FetchResult.response true →
        subscribe envOkW = { platformSubscribeCalled := true, posted := some sub,
                             rendered := some ("subscribed"), alerts := [],
                             errorsLogged := 0 }) ∧
     (∀ sub, envOkW.subscribeCall = SubscribeCall.granted sub →
        envOkW.subscribeFetch = FetchResult.response false →
        subscribe envOkW = { platformSubscribeCalled := true, posted := some sub,
                             rendered := none, alerts := [], errorsLogged := 0 }) ∧
     ((envOkW.subscribeCall = SubscribeCall.rejected ∨
         envOkW.subscribeFetch = FetchResult.failed) →
        envOkW.permissionDenied = true →
        (subscribe envOkW).rendered = some ("denied")) ∧
     ((envOkW.subscribeCall = SubscribeCall.rejected ∨
         envOkW.subscribeFetch = FetchResult.failed) →
        envOkW.permissionDenied = false →
        (subscribe envOkW).rendered = none ∧
        (subscribe envOkW).alerts = ["Не удалось подключить уведомления"] ∧
        (subscribe envOkW).errorsLogged = 1)) :=
  ⟨⟨rfl, by decide⟩, subscribe_error_handling envOkW rfl (by decide)⟩

/-- Helper: a "subscribed" or "prompt" render leaves the disabled flag
of the button exactly as it was. -/
theorem updateUI_keeps_disabled (d : PushDom) (x : String)
    (hx : x = "subscribed" ∨ x = "prompt") :
    btnDisabled (updateUI x d) = btnDisabled d := by
  rcases hx with h | h <;> subst h <;> cases hb : d.btn <;>
    simp [updateUI, btnDisabled, hb]

/-- Helper: any run of "subscribed"/"prompt" renders leaves the disabled
flag untouched. -/
theorem foldl_keeps_disabled (seq : List String) (d : PushDom)
    (hseq : ∀ x ∈ seq, x = "subscribed" ∨ x = "prompt") :
    btnDisabled (seq.foldl (fun acc x => updateUI x acc) d) = btnDisabled d := by
  induction seq generalizing d with
  | nil => rfl
  | cons a l ih =>
    have h1 := updateUI_keeps_disabled d a (hseq a (by simp))
    have h2 := ih (updateUI a d) (fun x hx => hseq x (by simp [hx]))
    simpa [h1] using h2

/-- Claim C10: `updateUI` writes the disabled flag only in the "denied"
and "unsupported" branches, always to `true`, and the "subscribed" and
"prompt" branches leave it unchanged; hence after a "denied" or
"unsupported" render the button stays disabled under every subsequent
run of "subscribed"/"prompt" renders. -/
theorem updateUI_disabled_frame (b : PushButton) (st : Option String) (seq : List String)
    (hseq : ∀ x ∈ seq, x = "subscribed" ∨ x = "prompt") :
    btnDisabled (updateUI ("subscribed") ⟨some b, st⟩) = some b.disabled ∧
    btnDisabled (updateUI ("prompt") ⟨some b, st⟩) = some b.disabled ∧
    btnDisabled (updateUI ("denied") ⟨some b, st⟩) = some true ∧
    btnDisabled (updateUI ("unsupported") ⟨some b, st⟩) = some true ∧
    btnDisabled (seq.foldl (fun acc x => updateUI x acc)
      (updateUI ("denied") ⟨some b, st⟩)) = some true ∧
    btnDisabled (seq.foldl (fun acc x => updateUI x acc)
      (updateUI ("unsupported") ⟨some b, st⟩)) = some true := by
  have hd : btnDisabled (updateUI ("denied") ⟨some b, st⟩) = some true := by
    simp [updateUI, btnDisabled]
  have hu : btnDisabled (updateUI ("unsupported") ⟨some b, st⟩) = some true := by
    simp [updateUI, btnDisabled]
  refine ⟨by simp [updateUI, btnDisabled], by simp [updateUI, btnDisabled],
    hd, hu, ?_, ?_⟩
  · rw [foldl_keeps_disabled seq _ hseq, hd]
  · rw [foldl_keeps_disabled seq _ hseq, hu]

/-- Witness for C10: the enabled button under renders
["subscribed", "prompt"] after a "denied"/"unsupported" render. -/
theorem updateUI_disabled_frame_witness :
    (∀ x ∈ (["subscribed", "prompt"] : List String),
       x = "subscribed" ∨ x = "prompt") ∧
    (btnDisabled (updateUI ("subscribed") ⟨some btnW, none⟩) = some btnW.disabled ∧
     btnDisabled (updateUI ("prompt") ⟨some btnW, none⟩) = some btnW.disabled ∧
     btnDisabled (updateUI ("denied") ⟨some btnW, none⟩) = some true ∧
     btnDisabled (updateUI ("unsupported") ⟨some btnW, none⟩) = some true ∧
     btnDisabled ((["subscribed", "prompt"] : List String).foldl
       (fun acc x => updateUI x acc) (updateUI ("denied") ⟨some btnW, none⟩)) = some true ∧
     btnDisabled ((["subscribed", "prompt"] : List String).foldl
       (fun acc x => updateUI x acc) (updateUI ("unsupported") ⟨some btnW, none⟩)) = some true) :=
  ⟨by decide, updateUI_disabled_frame btnW none (["subscribed", "prompt"]) (by decide)⟩

/-- Claim C7: a push payload whose JSON parse fails still yields a
notification, titled "FinLife", with the raw text as body and "/" as the
target URL; in particular the payload "Hello". -/
theorem push_plaintext_fallback :
    (∀ t, handlePush (some (PushPayload.textData t)) =
      some { title := "FinLife", body := t,
             icon := "/static/icons/icon-192.svg",
             badge := "/static/icons/icon-192.svg", url := "/" }) ∧
    handlePush (some (PushPayload.textData ("Hello"))) =
      some { title := "FinLife", body := "Hello",
             icon := "/static/icons/icon-192.svg",
             badge := "/static/icons/icon-192.svg", url := "/" } := by
  constructor
  · intro t
    by_cases h : t = ""
    · subst h; rfl
    · simp [handlePush, jsOr, h]
  · rfl

/-- Helper: when every client can focus, the handler's `find?` is the
head of the URL-match filter. -/
theorem find_eq_head_filter (p : WClient → Bool) (cs : List WClient)
    (hf : ∀ c ∈ cs, c.canFocus = true) :
    cs.find? (fun c => p c && c.canFocus) = (cs.filter p).head? := by
  induction cs with
  | nil => rfl
  | cons a l ih =>
    have ha := hf a (by simp)
    have hl : ∀ c ∈ l, c.canFocus = true := fun c hc => hf c (by simp [hc])
    by_cases hp : p a = true
    · simp [List.find?, List.filter, hp, ha]
    · simp only [Bool.not_eq_true] at hp
      simp [List.find?, List.filter, hp, ha, ih hl]

/-- Claim C8: on a notification click, with every open window client
focusable, the first client whose URL matches (contains) the target is
focused and no window is opened; with no matching client exactly one
window is opened at the target URL. The single `action` of the outcome
makes focusing and opening mutually exclusive. -/
theorem notificationclick_focus_or_open (data : Option (Option String)) (cs : List WClient)
    (hf : ∀ c ∈ cs, c.canFocus = true) :
    (notificationClick data cs).notificationClosed = true ∧
    (match cs.filter (fun c => strContains c.url (clickTargetUrl data)) with
     | [] => (notificationClick data cs).action =
         ClickAction.openWindow (clickTargetUrl data)
     | c :: _ => (notificationClick data cs).action = ClickAction.focusClient c) := by
  refine ⟨rfl, ?_⟩
  have hfind := find_eq_head_filter
    (fun c => strContains c.url (clickTargetUrl data)) cs hf
  cases hfl : cs.filter (fun c => strContains c.url (clickTargetUrl data)) with
  | nil =>
    simp only [hfl, List.head?] at hfind
    simp [notificationClick, hfind]
  | cons c r =>
    simp only [hfl, List.head?] at hfind
    simp [notificationClick, hfind]

/-- Witness for C8: a click targeting "/app" with a matching open tab. -/
theorem notificationclick_focus_or_open_witness :
    (∀ c ∈ clientsW, c.canFocus = true) ∧
    ((notificationClick (some (some ("/app"))) clientsW).notificationClosed = true ∧
     (match clientsW.filter
        (fun c => strContains c.url (clickTargetUrl (some (some ("/app"))))) with
      | [] => (notificationClick (some (some ("/app"))) clientsW).action =
          ClickAction.openWindow (clickTargetUrl (some (some ("/app"))))
      | c :: _ => (notificationClick (some (some ("/app"))) clientsW).action =
          ClickAction.focusClient c)) :=
  ⟨by decide, notificationclick_focus_or_open (some (some ("/app"))) clientsW (by decide)⟩

/-- Helper: capturing the tagged options of the served DOM recovers the
catalog. -/
theorem captured_domOptions (cats : List CatOpt) :
    capturedCatalog (domOptions cats) = cats := by
  simp [capturedCatalog, domOptions, placeholderOpt, List.filterMap_cons]
  induction cats with
  | nil => rfl
  | cons c l ih => simp [List.filterMap_cons, ih]

/-- Helper: the display pass of the old `filterCategories` recomputes
every tagged option's display and leaves untagged options alone. -/
theorem filterStep_foldl (t : String) (l : List (DomOpt × String))
    (acc : List (DomOpt × String)) (v : String) :
    (l.foldl (filterStep t) (acc, v)).1 = acc ++ l.map (fun e =>
      match e.1.dataType with
      | none => e
      | some dt => (e.1, if dt == t then "" else "none")) := by
  induction l generalizing acc v with
  | nil => simp
  | cons e l ih =>
    cases hdt : e.1.dataType with
    | none => simp [List.foldl, filterStep, hdt, ih]
    | some dt => simp [List.foldl, filterStep, hdt, ih]

/-- Helper: one display pass moves the old revision's option state to
the one determined by the new type. -/
theorem displayedOld_update (t : String) (a : Option String) (cats : List CatOpt) :
    (displayedOld a cats).map (fun e =>
      match e.1.dataType with
      | none => e
      | some dt => (e.1, if dt == t then "" else "none")) =
    displayedOld (some t) cats := by
  simp only [displayedOld, List.map_cons]
  congr 1
  induction cats with
  | nil => rfl
  | cons c l ih =>
    simp only [List.map_cons]
    simp only [tagOpt] at ih ⊢
    rw [ih]



/-- Helper: the rebuild revision's option list always starts with the
placeholder. -/
theorem optionsNew_take_one (a : Option String) (cats : List CatOpt) :
    (optionsNew a cats).take 1 = [placeholderOpt] := by
  cases a <;> simp [optionsNew, domOptions, take_one_cons]

/-- Helper: the old revision's initial state matches the initial
abstract state. -/
theorem charOld_start (cats : List CatOpt) :
    CharOld cats (OldModal.start cats) (none, "") := by
  refine ⟨?_, rfl, rfl⟩
  simp [OldModal.start, displayedOld, domOptions, tagOpt, List.map_map]

/-- Helper: the rebuild revision's initial state matches the initial
abstract state. -/
theorem charNew_start (cats : List CatOpt) :
    CharNew cats (NewModal.start cats) (none, "") := by
  exact ⟨rfl, rfl, rfl⟩

/-- Helper: `openModalOld` tracks one abstract step. -/
theorem charOld_step (cats : List CatOpt) (t : String) (s : OldModal)
    (a : Option String × String) (h : CharOld cats s a) :
    CharOld cats (openModalOld t s) (absStep a t) := by
  obtain ⟨ho, hr, hv⟩ := h
  by_cases ht : t = "TRANSFER"
  · subst ht
    refine ⟨?_, ?_, ?_⟩ <;>
      simp [openModalOld, filterCategoriesOld, absStep, ho]
  · refine ⟨?_, ?_, ?_⟩
    · show (openModalOld t s).categoryOptions = _
      simp only [openModalOld, filterCategoriesOld, absStep]
      simp [ht]
      rw [ho, filterStep_foldl, displayedOld_update]
      simp
    · simp [openModalOld, filterCategoriesOld, absStep, ht]
    · simp [openModalOld, filterCategoriesOld, ht]



/-- Helper: `openModal` (rebuild revision) tracks one abstract step. -/
theorem charNew_step (cats : List CatOpt) (t : String) (s : NewModal)
    (a : Option String × String) (h : CharNew cats s a) :
    CharNew cats (openModal cats t s) (absStep a t) := by
  obtain ⟨ho, hr, hv⟩ := h
  obtain ⟨-, hrow, hopt⟩ := openModal_category_fields cats s t
  by_cases ht : t = "TRANSFER"
  · refine ⟨?_, ?_, ?_⟩
    · rw [hopt, if_pos ht, ho]
      simp [absStep, ht]
    · rw [hrow, if_pos ht]
      simp [absStep, ht]
    · exact (openModal_category_fields cats s t).1
  · refine ⟨?_, ?_, ?_⟩
    · rw [hopt, if_neg ht, ho, optionsNew_take_one]
      simp [absStep, ht, optionsNew, rebuiltOpt]
    · rw [hrow, if_neg ht]
      simp [absStep, ht]
    · exact (openModal_category_fields cats s t).1

/-- Helper: the old revision tracks the abstract state along any call
history. -/
theorem charOld_foldl (cats : List CatOpt) (seq : List String) :
    ∀ (s : OldModal) (a : Option String × String), CharOld cats s a →
      CharOld cats (seq.foldl (fun s ty => openModalOld ty s) s)
        (seq.foldl absStep a) := by
  induction seq with
  | nil => intro s a h; exact h
  | cons ty l ih =>
    intro s a h
    exact ih (openModalOld ty s) (absStep a ty) (charOld_step cats ty s a h)

/-- Helper: the rebuild revision tracks the abstract state along any
call history. -/
theorem charNew_foldl (cats : List CatOpt) (seq : List String) :
    ∀ (s : NewModal) (a : Option String × String), CharNew cats s a →
      CharNew cats (seq.foldl (fun s ty => openModal cats ty s) s)
        (seq.foldl absStep a) := by
  induction seq with
  | nil => intro s a h; exact h
  | cons ty l ih =>
    intro s a h
    exact ih (openModal cats ty s) (absStep a ty) (charNew_step cats ty s a h)

/-- Helper: filtering the displayed tagged options leaves exactly the
entries of the filtered type. -/
theorem presentedOld_tail (t : String) (cats : List CatOpt) :
    ((cats.map (fun c => (tagOpt c, if c.type == t then "" else "none"))).filter
      (fun e => !(e.2 == "none"))).map (fun e => (e.1.value, e.1.label)) =
    (cats.filter (fun c => c.type == t)).map (fun c => (c.value, c.label)) := by
  induction cats with
  | nil => rfl
  | cons c l ih =>
    simp only [tagOpt] at ih ⊢
    by_cases hc : c.type = t <;>
      simp only [beq_iff_eq] at ih ⊢ <;>
      simp [List.filter_cons, hc] <;>
      exact ih

/-- Helper: what the old revision presents after filtering for type t:
the placeholder followed by the matching entries. -/
theorem presentedOld_displayed (t : String) (cats : List CatOpt) :
    ((displayedOld (some t) cats).filter (fun e => !(e.2 == "none"))).map
      (fun e => (e.1.value, e.1.label)) =
    ("", "Без категории") ::
      (cats.filter (fun c => c.type == t)).map (fun c => (c.value, c.label)) := by
  have h := presentedOld_tail t cats
  simp only [beq_iff_eq] at h
  simp only [displayedOld, List.filter_cons] at *
  simp [placeholderOpt, h]

/-- Helper: what the rebuild revision presents after rebuilding for
type t: the placeholder followed by the matching entries. -/
theorem presentedNew_options (t : String) (cats : List CatOpt) :
    (optionsNew (some t) cats).map (fun o => (o.value, o.label)) =
    ("", "Без категории") ::
      (cats.filter (fun c => c.type == t)).map (fun c => (c.value, c.label)) := by
  simp [optionsNew, placeholderOpt, rebuiltOpt, List.map_map]



/-- Claim C9: the old visibility-toggling and the new removal-and-reappend
implementations of the category filter are equivalent at the `openModal`
interface: starting from the same host page and after the same history of
`openModal` calls ending in `openModal(t)`, both revisions present the
same selectable category options and the same (empty) selection, and for
non-TRANSFER t that common set is the placeholder followed by exactly the
catalog entries of type t (for TRANSFER the hidden row presents none). -/
theorem filter_rebuild_equivalent (cats : List CatOpt) (hist : List String) (t : String) :
    OldModal.presented ((hist ++ [t]).foldl (fun s ty => openModalOld ty s)
        (OldModal.start cats)) =
      NewModal.presented ((hist ++ [t]).foldl
        (fun s ty => openModal (capturedCatalog (domOptions cats)) ty s)
        (NewModal.start cats)) ∧
    ((hist ++ [t]).foldl (fun s ty => openModalOld ty s)
        (OldModal.start cats)).categoryValue = "" ∧
    ((hist ++ [t]).foldl (fun s ty => openModal (capturedCatalog (domOptions cats)) ty s)
        (NewModal.start cats)).categoryValue = "" ∧
    NewModal.presented ((hist ++ [t]).foldl
        (fun s ty => openModal (capturedCatalog (domOptions cats)) ty s)
        (NewModal.start cats)) =
      (if t = "TRANSFER" then []
       else ("", "Без категории") ::
         (cats.filter (fun c => c.type == t)).map (fun c => (c.value, c.label))) := by
  rw [captured_domOptions]
  have hO := charOld_foldl cats (hist ++ [t]) (OldModal.start cats) (none, "")
    (charOld_start cats)
  have hN := charNew_foldl cats (hist ++ [t]) (NewModal.start cats) (none, "")
    (charNew_start cats)
  have haf : (hist ++ [t]).foldl absStep (none, "") =
      absStep (hist.foldl absStep (none, "")) t := by
    rw [List.foldl_append]
    rfl
  obtain ⟨hoOpt, hoRow, hoVal⟩ := hO
  obtain ⟨hnOpt, hnRow, hnVal⟩ := hN
  rw [haf] at hoOpt hoRow hnOpt hnRow
  by_cases ht : t = "TRANSFER"
  · have h2 : (absStep (hist.foldl absStep (none, "")) t).2 = "none" := by
      simp [absStep, ht]
    rw [h2] at hoRow hnRow
    refine ⟨?_, hoVal, hnVal, ?_⟩
    · simp only [OldModal.presented, NewModal.presented, hoRow, hnRow]
      rfl
    · simp only [NewModal.presented, hnRow, if_pos ht]
      rfl
  · have h1 : (absStep (hist.foldl absStep (none, "")) t).1 = some t := by
      simp [absStep, ht]
    have h2 : (absStep (hist.foldl absStep (none, "")) t).2 = "" := by
      simp [absStep, ht]
    rw [h1] at hoOpt hnOpt
    rw [h2] at hoRow hnRow
    have hnp : NewModal.presented ((hist ++ [t]).foldl
        (fun s ty => openModal cats ty s) (NewModal.start cats)) =
        ("", "Без категории") ::
          (cats.filter (fun c => c.type == t)).map (fun c => (c.value, c.label)) := by
      simp only [NewModal.presented, hnRow, hnOpt]
      simp [presentedNew_options]
    have hop : OldModal.presented ((hist ++ [t]).foldl
        (fun s ty => openModalOld ty s) (OldModal.start cats)) =
        ("", "Без категории") ::
          (cats.filter (fun c => c.type == t)).map (fun c => (c.value, c.label)) := by
      simp only [OldModal.presented, hoRow, hoOpt]
      have h := presentedOld_displayed t cats
      simp only [beq_iff_eq] at h ⊢
      simpa using h
    refine ⟨by rw [hop, hnp], hoVal, hnVal, by rw [hnp, if_neg ht]⟩

end FinLife
